import Mathlib

/-!
Verification development for the LSL simulator / XDF tester repository.

The repository has two halves:
  - `streamer.py`: a synthetic multi-stream broadcaster (four continuous
    EEG-style streams plus one irregular marker stream);
  - `tester.py`: a post-hoc verifier that loads an XDF recording and
    cross-checks the recorded streams against the expected configurations.

This file gives a shallow embedding of both halves.  Floating-point
quantities (rates, timestamps, amplitudes, sample values) are modelled as
rationals; the arithmetic the code performs on them (comparison, subtraction,
division, absolute value) is exact in all the situations the theorems cover.
Python integers are modelled as naturals.  The random draws of the streamer
(random.uniform, random.choice) are modelled by oracle functions supplying
the unit draws, and the threading stop event by an observation trace: the
finite list of successive results of stop_event.is_set().
-/

namespace LSLSim

/-! ## Embedding of streamer.py -/

/-- One entry of `eeg_stream_configs` in streamer.py (a Python dict with
keys name, type, n_channels, srate, amplitude). -/
structure EEGConfig where
  name : String
  type : String
  n_channels : Nat
  srate : Nat
  amplitude : ℚ
deriving DecidableEq, Repr

/-- streamer.py lines 7-12: the four continuous stream configurations. -/
def eeg_stream_configs : List EEGConfig :=
  [ { name := "EEG_Stream_1Hz", type := "EEG", n_channels := 4, srate := 1, amplitude := 50 },
    { name := "EEG_Stream_10Hz", type := "EEG", n_channels := 8, srate := 10, amplitude := 100 },
    { name := "EEG_Stream_250Hz", type := "EEG", n_channels := 16, srate := 250, amplitude := 200 },
    { name := "EEG_Stream_500Hz", type := "EEG", n_channels := 32, srate := 500, amplitude := 400 } ]

/-- streamer.py lines 15-22: the marker stream configuration. -/
structure MarkerConfig where
  name : String
  type : String
  n_channels : Nat
  srate : Nat
  marker_interval_ms : ℚ × ℚ
  marker_types : List String
deriving DecidableEq, Repr

def marker_stream_config : MarkerConfig :=
  { name := "Test_Markers"
    type := "Markers"
    n_channels := 1
    srate := 0
    marker_interval_ms := (500, 2000)
    marker_types := ["Onset", "Stimulus", "Response", "Error", "Event_A", "Event_B"] }

/-- streamer.py line 44: the per-channel sample value
`amplitude * (random.uniform(-0.5, 0.5) + 0.2 * (sample_count % (srate * 2)) / srate)`,
with `u` standing for the value returned by random.uniform(-0.5, 0.5).
The modulus is Python integer arithmetic (sample_count and srate are ints);
the division is Python float division. -/
def eeg_sample_value (config : EEGConfig) (u : ℚ) (sample_count : Nat) : ℚ :=
  config.amplitude * (u + 0.2 * ((sample_count % (config.srate * 2) : Nat) : ℚ) / (config.srate : ℚ))

/-- streamer.py lines 43-46: one pushed sample, a list comprehension over the
channels, each channel drawing its uniform noise independently.  `noise c ch`
is the value random.uniform(-0.5, 0.5) returned at tick `c` for channel `ch`. -/
def eeg_tick (config : EEGConfig) (noise : Nat → Nat → ℚ) (sample_count : Nat) : List ℚ :=
  (List.range config.n_channels).map (fun ch => eeg_sample_value config (noise sample_count ch) sample_count)

/-- streamer.py lines 41-49: the generator loop of create_eeg_stream.
`obs` is the trace of successive results of stop_event.is_set(), checked at
the top of each iteration; on a false observation the loop pushes one sample,
increments sample_count, and sleeps 1.0 / srate seconds; on a true
observation it terminates.  The result is the list of
(pushed sample, sleep duration) pairs together with the final sample_count. -/
def create_eeg_stream_run (config : EEGConfig) (noise : Nat → Nat → ℚ) :
    List Bool → Nat → List (List ℚ × ℚ) × Nat
  | [], sample_count => ([], sample_count)
  | stopped :: rest, sample_count =>
    if stopped then ([], sample_count)
    else
      let sample := eeg_tick config noise sample_count
      let r := create_eeg_stream_run config noise rest (sample_count + 1)
      ((sample, 1 / (config.srate : ℚ)) :: r.1, r.2)

/-- random.uniform(a, b) = a + (b - a) * random(), where random() lies in
[0, 1]; `u` stands for the value of random(). -/
def py_uniform (a b u : ℚ) : ℚ := a + (b - a) * u

/-- random.choice(l): picks an element of the nonempty list l; `k` stands for
the chosen index. -/
def py_choice (l : List String) (k : Nat) : String := l.getD (k % l.length) ""

/-- streamer.py line 69: the per-iteration sleep of the marker loop,
`random.uniform(min_ms, max_ms) / 1000.0` seconds. -/
def marker_sleep_time (config : MarkerConfig) (u : ℚ) : ℚ :=
  py_uniform config.marker_interval_ms.1 config.marker_interval_ms.2 u / 1000

/-- streamer.py lines 65-70: the generator loop of create_marker_stream.
`obs` is the trace of stop_event.is_set() results, `us i` the random() draw
behind the i-th random.uniform call, `ks i` the index chosen by the i-th
random.choice.  The result lists the (pushed marker, sleep duration) pairs. -/
def create_marker_stream_run (config : MarkerConfig) (us : Nat → ℚ) (ks : Nat → Nat) :
    List Bool → Nat → List (String × ℚ)
  | [], _ => []
  | stopped :: rest, i =>
    if stopped then []
    else
      (py_choice config.marker_types (ks i), marker_sleep_time config (us i)) ::
        create_marker_stream_run config us ks rest (i + 1)

/-! ## Embedding of tester.py -/

/-- The values of one recorded sample: numeric rows for EEG-style streams,
string rows for marker streams.  The verifier never branches on the values
themselves, only on how many samples there are and on the timestamps. -/
abbrev SampleValues : Type := List ℚ ⊕ List String

/-- One recorded stream as loaded by pyxdf.load_xdf: the metadata fields the
verifier reads (info.name, info.type, info.channel_count, info.nominal_srate)
plus the parallel arrays time_series / time_stamps, which pyxdf produces with
one timestamp per sample; we keep them as one list of pairs. -/
structure XDFStream where
  name : String
  type : String
  channel_count : Nat
  nominal_srate : ℚ
  samples : List (ℚ × SampleValues)
deriving DecidableEq

/-- stream['time_stamps']. -/
def time_stamps (s : XDFStream) : List ℚ := s.samples.map Prod.fst

/-- stream['time_series']. -/
def time_series (s : XDFStream) : List SampleValues := s.samples.map Prod.snd

/-- The value part of one entry of tester.py's expected_eeg_streams dict. -/
structure ExpectedCfg where
  type : String
  n_channels : Nat
  srate : ℚ
deriving DecidableEq, Repr

/-- tester.py lines 26-31: the expected_eeg_streams dict, as the lookup
function it is used as. -/
def expected_eeg_streams (name : String) : Option ExpectedCfg :=
  if name = "EEG_Stream_1Hz" then some { type := "EEG", n_channels := 4, srate := 1 }
  else if name = "EEG_Stream_10Hz" then some { type := "EEG", n_channels := 8, srate := 10 }
  else if name = "EEG_Stream_250Hz" then some { type := "EEG", n_channels := 16, srate := 250 }
  else if name = "EEG_Stream_500Hz" then some { type := "EEG", n_channels := 32, srate := 500 }
  else none

/-- The iteration order of the expected_eeg_streams dict (Python dicts keep
insertion order), used by the summary loop. -/
def expected_eeg_names : List String :=
  ["EEG_Stream_1Hz", "EEG_Stream_10Hz", "EEG_Stream_250Hz", "EEG_Stream_500Hz"]

/-- tester.py lines 32-34: the expected_marker_stream dict. -/
structure ExpectedMarkerCfg where
  name : String
  type : String
  n_channels : Nat
  srate : ℚ
deriving DecidableEq, Repr

def expected_marker_stream : ExpectedMarkerCfg :=
  { name := "Test_Markers", type := "Markers", n_channels := 1, srate := 0 }

/-- The outcome of the sample-rate / irregularity block, tester.py lines
54-78: which advisory (if any) the block prints for one stream. -/
inductive RateAdvisory where
  /-- No samples at all, or none of the rate branches applies. -/
  | noAdvisory : RateAdvisory
  /-- Actual rate computed and within 10 percent of nominal: only the
  informational actual-rate line is printed. -/
  | rateOk (actual_srate : ℚ) : RateAdvisory
  /-- Line 73: WARNING, actual rate differs significantly from nominal. -/
  | rateWarning (actual_srate : ℚ) : RateAdvisory
  /-- Line 75: warning that the duration is zero. -/
  | zeroDuration : RateAdvisory
  /-- Lines 76-78: marker irregularity line; np.std(np.diff(time_stamps))
  is printed, so we record the list of consecutive timestamp differences it
  is computed from. -/
  | markerIrregularity (diffs : List ℚ) : RateAdvisory
deriving DecidableEq

/-- np.diff: consecutive differences of a list. -/
def npDiff : List ℚ → List ℚ
  | [] => []
  | [_] => []
  | a :: b :: rest => (b - a) :: npDiff (b :: rest)

/-- time_stamps[0] (defined when the list is nonempty; 0 as a dummy). -/
def firstTs (s : XDFStream) : ℚ := (time_stamps s).headD 0

/-- time_stamps[-1]. -/
def lastTs (s : XDFStream) : ℚ := (time_stamps s).getLastD 0

/-- The actual sample rate estimate of tester.py line 70:
(len(time_stamps) - 1) / (time_stamps[-1] - time_stamps[0]). -/
def actual_srate (s : XDFStream) : ℚ :=
  (((time_stamps s).length : ℚ) - 1) / (lastTs s - firstTs s)

/-- tester.py lines 54-78: the rate / irregularity block for one stream.
The outer guard is len(time_series) > 0; then
if srate > 0 and len(time_stamps) > 1, the duration and the actual rate are
computed and the 10 percent deviation check runs; elif srate == 0 and
len(time_series) > 1, the marker irregularity line is printed. -/
def rate_check (s : XDFStream) : RateAdvisory :=
  if 0 < (time_series s).length then
    if 0 < s.nominal_srate ∧ 1 < (time_stamps s).length then
      let actual_duration := lastTs s - firstTs s
      if 0 < actual_duration then
        if 0.1 < |actual_srate s - s.nominal_srate| / s.nominal_srate then
          RateAdvisory.rateWarning (actual_srate s)
        else
          RateAdvisory.rateOk (actual_srate s)
      else
        RateAdvisory.zeroDuration
    else if s.nominal_srate = 0 ∧ 1 < (time_series s).length then
      RateAdvisory.markerIrregularity (npDiff (time_stamps s))
    else
      RateAdvisory.noAdvisory
  else
    RateAdvisory.noAdvisory

/-- Division that fails instead of defaulting on a zero divisor; used to show
the verifier never divides by zero (claim C9). -/
def checkedDiv (a b : ℚ) : Option ℚ :=
  if b = 0 then none else some (a / b)

/-- rate_check with both divisions (the actual-rate estimate and the
relative-deviation quotient) replaced by checkedDiv: returns none exactly
when the code would divide by zero. -/
def rate_check_checked (s : XDFStream) : Option RateAdvisory :=
  if 0 < (time_series s).length then
    if 0 < s.nominal_srate ∧ 1 < (time_stamps s).length then
      let actual_duration := lastTs s - firstTs s
      if 0 < actual_duration then
        (checkedDiv (((time_stamps s).length : ℚ) - 1) actual_duration).bind fun actual =>
          (checkedDiv |actual - s.nominal_srate| s.nominal_srate).map fun deviation =>
            if 0.1 < deviation then RateAdvisory.rateWarning actual
            else RateAdvisory.rateOk actual
      else
        some RateAdvisory.zeroDuration
    else if s.nominal_srate = 0 ∧ 1 < (time_series s).length then
      some (RateAdvisory.markerIrregularity (npDiff (time_stamps s)))
    else
      some RateAdvisory.noAdvisory
  else
    some RateAdvisory.noAdvisory

/-- The per-stream verdict line printed by tester.py lines 81-101, with the
message text it carries. -/
inductive StreamCheck where
  /-- A VERIFIED line (lines 87 and 96). -/
  | verified (msg : String) : StreamCheck
  /-- A MISMATCH line (lines 90 and 99). -/
  | mismatch (msg : String) : StreamCheck
  /-- The INFO line for a stream that is not one of the expected ones
  (line 101). -/
  | unexpectedInfo (msg : String) : StreamCheck
deriving DecidableEq

/-- Whether the recorded stream's fields equal one expected configuration,
tester.py lines 84-86 / 93-95. -/
def fieldsMatch (s : XDFStream) (e : ExpectedCfg) : Bool :=
  s.type = e.type ∧ s.channel_count = e.n_channels ∧ s.nominal_srate = e.srate

/-- tester.py lines 82-101: the classification branch for one recorded
stream, producing the verdict line printed for it. -/
def classifyStream (s : XDFStream) : StreamCheck :=
  match expected_eeg_streams s.name with
  | some expected =>
    if fieldsMatch s expected then
      StreamCheck.verified
        ("  [VERIFIED]: Matches expected EEG stream configuration for " ++ s.name ++ ".")
    else
      StreamCheck.mismatch
        ("  [MISMATCH]: " ++ s.name ++ " properties do not match expected configuration.")
  | none =>
    if s.name = expected_marker_stream.name then
      if s.type = expected_marker_stream.type ∧
          s.channel_count = expected_marker_stream.n_channels ∧
          s.nominal_srate = expected_marker_stream.srate then
        StreamCheck.verified "  [VERIFIED]: Matches expected Marker stream configuration."
      else
        StreamCheck.mismatch
          ("  [MISMATCH]: " ++ s.name ++ " properties do not match expected configuration.")
    else
      StreamCheck.unexpectedInfo
        ("  [INFO]: This stream (" ++ s.name ++ ") is not one of the expected simulated streams.")

/-- The found-flag state of the verification loop: the found_eeg_streams
dict (a map from stream name to flag, initialised all-false at line 36) and
the found_marker_stream flag (line 37). -/
def FoundState : Type := (String → Bool) × Bool

/-- The flag updates performed by one iteration of the loop, tester.py lines
82-99: on an in-dict name whose fields match, found_eeg_streams[name] = True
(line 88); on the marker name with matching fields, found_marker_stream =
True (line 97); otherwise the flags are unchanged. -/
def stepFound (st : FoundState) (s : XDFStream) : FoundState :=
  let (found_eeg, found_marker) := st
  match expected_eeg_streams s.name with
  | some expected =>
    if fieldsMatch s expected then
      (fun n => if n = s.name then true else found_eeg n, found_marker)
    else
      (found_eeg, found_marker)
  | none =>
    if s.name = expected_marker_stream.name then
      if s.type = expected_marker_stream.type ∧
          s.channel_count = expected_marker_stream.n_channels ∧
          s.nominal_srate = expected_marker_stream.srate then
        (found_eeg, true)
      else
        (found_eeg, found_marker)
    else
      (found_eeg, found_marker)

/-- The flag state after the whole loop over the recorded streams. -/
def foldFound (streams : List XDFStream) : FoundState :=
  streams.foldl stepFound (fun _ => false, false)

/-- The report the verification run produces: one (advisory, verdict line)
pair per recorded stream, in recording order, and the overall
all_expected_found verdict computed by the summary loop of tester.py lines
105-118. -/
structure Report where
  checks : List (RateAdvisory × StreamCheck)
  all_expected_found : Bool

/-- tester.py lines 36-118 for a successfully loaded recording: the stream
loop (advisory block and classification per stream, found-flag updates) and
the summary fold of the flags into all_expected_found. -/
def verify_streams (streams : List XDFStream) : Report :=
  let st := foldFound streams
  { checks := streams.map (fun s => (rate_check s, classifyStream s))
    all_expected_found := (expected_eeg_names.all fun n => st.1 n) && st.2 }

/-- The observable result of verify_xdf_recording: either the top-level load
error path of tester.py lines 21-24 (print the error and return, producing
no report) or a full report. -/
inductive VerifyResult where
  | loadError (msg : String) : VerifyResult
  | report (r : Report) : VerifyResult

/-- tester.py lines 5-127: pyxdf.load_xdf either raises (modelled as the
Except.error case, line 21: the exception message is printed and the
function returns) or yields the recorded streams, which are then verified. -/
def verify_xdf_recording : Except String (List XDFStream) → VerifyResult
  | Except.error e => VerifyResult.loadError ("Error loading XDF file: " ++ e)
  | Except.ok streams => VerifyResult.report (verify_streams streams)

/-! ## Derived notions used in the claims -/

/-- Whether a per-stream verdict line is a VERIFIED line. -/
def StreamCheck.isVerified : StreamCheck → Bool
  | StreamCheck.verified _ => true
  | _ => false

/-- The same recorded stream with its sample data removed; used to state
that the overall verdict depends only on stream metadata, never on the
timestamps or values (so advisories cannot flip it). -/
def stripTimes (s : XDFStream) : XDFStream :=
  { s with samples := [] }

/-- A synthetic recorded stream built from one broadcaster EEG
configuration: name, type, channel count and nominal rate copied verbatim,
n samples with timestamps spaced exactly 1/srate apart. -/
def roundTripEEG (config : EEGConfig) (n : Nat) : XDFStream :=
  { name := config.name
    type := config.type
    channel_count := config.n_channels
    nominal_srate := (config.srate : ℚ)
    samples := (List.range n).map fun i =>
      ((i : ℚ) / (config.srate : ℚ), Sum.inl (List.replicate config.n_channels 0)) }

/-- A synthetic recorded marker stream built from the broadcaster marker
configuration, with the given (irregular) timestamps. -/
def roundTripMarker (config : MarkerConfig) (ts : List ℚ) : XDFStream :=
  { name := config.name
    type := config.type
    channel_count := config.n_channels
    nominal_srate := (config.srate : ℚ)
    samples := ts.map fun t => (t, Sum.inr ["Onset"]) }

/-- The synthetic round-trip recording: one stream per broadcaster
configuration, n samples each for the continuous streams, the given
timestamps for the marker stream. -/
def roundTripRecording (n : Nat) (ts : List ℚ) : List XDFStream :=
  (eeg_stream_configs.map fun config => roundTripEEG config n) ++
    [roundTripMarker marker_stream_config ts]

/-- Whether a recorded stream sets its own found_eeg_streams flag: its name
is in the expected dict and all three fields match. -/
def matchesExpectedEEG (s : XDFStream) : Bool :=
  match expected_eeg_streams s.name with
  | some expected => fieldsMatch s expected
  | none => false

/-- Whether a recorded stream sets found_marker_stream. -/
def matchesMarker (s : XDFStream) : Bool :=
  s.name = expected_marker_stream.name &&
    decide (s.type = expected_marker_stream.type ∧
      s.channel_count = expected_marker_stream.n_channels ∧
      s.nominal_srate = expected_marker_stream.srate)

/-! ## Helper lemmas -/

lemma expected_eeg_streams_marker_none :
    expected_eeg_streams expected_marker_stream.name = none := by decide

lemma stepFound_fst (st : FoundState) (s : XDFStream) (n : String) :
    (stepFound st s).1 n = ((decide (s.name = n) && matchesExpectedEEG s) || st.1 n) := by
  obtain ⟨f, fm⟩ := st
  unfold stepFound matchesExpectedEEG
  cases h : expected_eeg_streams s.name with
  | some expected =>
    simp only [h]
    by_cases hf : fieldsMatch s expected = true
    · simp only [hf, if_true]
      by_cases hn : n = s.name
      · subst hn; simp
      · have hn2 : ¬(s.name = n) := fun hh => hn hh.symm
        simp [hn, hn2]
    · simp [hf]
  | none =>
    simp only [h]
    split
    · split <;> simp
    · simp

lemma stepFound_snd (st : FoundState) (s : XDFStream) :
    (stepFound st s).2 = (st.2 || matchesMarker s) := by
  obtain ⟨f, fm⟩ := st
  unfold stepFound matchesMarker
  cases h : expected_eeg_streams s.name with
  | some expected =>
    have hname : ¬(s.name = expected_marker_stream.name) := by
      intro hn
      rw [hn, expected_eeg_streams_marker_none] at h
      exact Option.noConfusion h
    simp only [h]
    split <;> simp [hname]
  | none =>
    simp only [h]
    by_cases hn : s.name = expected_marker_stream.name
    · by_cases hfields : s.type = expected_marker_stream.type ∧
          s.channel_count = expected_marker_stream.n_channels ∧
          s.nominal_srate = expected_marker_stream.srate
      · simp [hn, hfields]
      · simp [hn, hfields]
    · simp [hn]

lemma foldFound_fst_general (streams : List XDFStream) (st : FoundState) (n : String) :
    (streams.foldl stepFound st).1 n =
      (st.1 n || streams.any fun s => decide (s.name = n) && matchesExpectedEEG s) := by
  induction streams generalizing st with
  | nil => simp
  | cons s rest ih =>
    rw [List.foldl_cons, ih, List.any_cons, stepFound_fst]
    cases st.1 n <;> cases (decide (s.name = n) && matchesExpectedEEG s) <;> simp

lemma foldFound_snd_general (streams : List XDFStream) (st : FoundState) :
    (streams.foldl stepFound st).2 = (st.2 || streams.any matchesMarker) := by
  induction streams generalizing st with
  | nil => simp
  | cons s rest ih =>
    rw [List.foldl_cons, ih, List.any_cons, stepFound_snd]
    cases st.2 <;> cases matchesMarker s <;> simp

lemma foldFound_fst (streams : List XDFStream) (n : String) :
    (foldFound streams).1 n =
      streams.any fun s => decide (s.name = n) && matchesExpectedEEG s := by
  rw [foldFound, foldFound_fst_general]
  rfl

lemma foldFound_snd (streams : List XDFStream) :
    (foldFound streams).2 = streams.any matchesMarker := by
  rw [foldFound, foldFound_snd_general]
  rfl

lemma anyMatchEEG_iff (streams : List XDFStream) (n : String) (e : ExpectedCfg)
    (h : expected_eeg_streams n = some e) :
    (streams.any fun s => decide (s.name = n) && matchesExpectedEEG s) = true ↔
      ∃ s ∈ streams, s.name = n ∧ s.type = e.type ∧
        s.channel_count = e.n_channels ∧ s.nominal_srate = e.srate := by
  rw [List.any_eq_true]
  constructor
  · rintro ⟨s, hs, hb⟩
    rw [Bool.and_eq_true, decide_eq_true_eq] at hb
    obtain ⟨hn, hm⟩ := hb
    refine ⟨s, hs, hn, ?_⟩
    unfold matchesExpectedEEG at hm
    rw [hn, h] at hm
    simpa [fieldsMatch] using hm
  · rintro ⟨s, hs, hn, ht, hc, hr⟩
    refine ⟨s, hs, ?_⟩
    rw [Bool.and_eq_true, decide_eq_true_eq]
    refine ⟨hn, ?_⟩
    unfold matchesExpectedEEG
    rw [hn, h]
    simp [fieldsMatch, ht, hc, hr]

lemma anyMatchMarker_iff (streams : List XDFStream) :
    (streams.any matchesMarker) = true ↔
      ∃ s ∈ streams, s.name = "Test_Markers" ∧ s.type = "Markers" ∧
        s.channel_count = 1 ∧ s.nominal_srate = 0 := by
  rw [List.any_eq_true]
  unfold matchesMarker
  simp [expected_marker_stream, and_assoc]

lemma all_expected_found_eq (streams : List XDFStream) :
    (verify_streams streams).all_expected_found =
      (((streams.any fun s => decide (s.name = "EEG_Stream_1Hz") && matchesExpectedEEG s) &&
        (streams.any fun s => decide (s.name = "EEG_Stream_10Hz") && matchesExpectedEEG s) &&
        (streams.any fun s => decide (s.name = "EEG_Stream_250Hz") && matchesExpectedEEG s) &&
        (streams.any fun s => decide (s.name = "EEG_Stream_500Hz") && matchesExpectedEEG s)) &&
        streams.any matchesMarker) := by
  show ((expected_eeg_names.all fun n => (foldFound streams).1 n) && (foldFound streams).2) = _
  rw [foldFound_snd]
  simp only [expected_eeg_names, List.all_cons, List.all_nil, foldFound_fst, Bool.and_true]
  cases h1 : streams.any fun s => decide (s.name = "EEG_Stream_1Hz") && matchesExpectedEEG s <;>
    cases h2 : streams.any fun s => decide (s.name = "EEG_Stream_10Hz") && matchesExpectedEEG s <;>
    cases h3 : streams.any fun s => decide (s.name = "EEG_Stream_250Hz") && matchesExpectedEEG s <;>
    cases h4 : streams.any fun s => decide (s.name = "EEG_Stream_500Hz") && matchesExpectedEEG s <;>
    simp

/-! ## Claims -/

/-- C1: For every input recording, the verifier's overall verdict is success
if and only if every one of the five catalog entries (EEG_Stream_1Hz,
EEG_Stream_10Hz, EEG_Stream_250Hz, EEG_Stream_500Hz, Test_Markers) has some
recorded stream with the same name whose type, channel count, and nominal
rate all exactly equal the expected values; if any catalog entry has no such
matching recorded stream, the verdict is failure. -/
theorem C1_verdict_iff_all_matched (streams : List XDFStream) :
    (verify_streams streams).all_expected_found = true ↔
      ((∃ s ∈ streams, s.name = "EEG_Stream_1Hz" ∧ s.type = "EEG" ∧
          s.channel_count = 4 ∧ s.nominal_srate = 1) ∧
       (∃ s ∈ streams, s.name = "EEG_Stream_10Hz" ∧ s.type = "EEG" ∧
          s.channel_count = 8 ∧ s.nominal_srate = 10) ∧
       (∃ s ∈ streams, s.name = "EEG_Stream_250Hz" ∧ s.type = "EEG" ∧
          s.channel_count = 16 ∧ s.nominal_srate = 250) ∧
       (∃ s ∈ streams, s.name = "EEG_Stream_500Hz" ∧ s.type = "EEG" ∧
          s.channel_count = 32 ∧ s.nominal_srate = 500) ∧
       (∃ s ∈ streams, s.name = "Test_Markers" ∧ s.type = "Markers" ∧
          s.channel_count = 1 ∧ s.nominal_srate = 0)) := by
  rw [all_expected_found_eq]
  simp only [Bool.and_eq_true]
  rw [anyMatchEEG_iff streams "EEG_Stream_1Hz"
      { type := "EEG", n_channels := 4, srate := 1 } (by decide),
    anyMatchEEG_iff streams "EEG_Stream_10Hz"
      { type := "EEG", n_channels := 8, srate := 10 } (by decide),
    anyMatchEEG_iff streams "EEG_Stream_250Hz"
      { type := "EEG", n_channels := 16, srate := 250 } (by decide),
    anyMatchEEG_iff streams "EEG_Stream_500Hz"
      { type := "EEG", n_channels := 32, srate := 500 } (by decide),
    anyMatchMarker_iff]
  constructor
  · rintro ⟨⟨⟨⟨h1, h2⟩, h3⟩, h4⟩, h5⟩
    exact ⟨h1, h2, h3, h4, h5⟩
  · rintro ⟨h1, h2, h3, h4, h5⟩
    exact ⟨⟨⟨⟨h1, h2⟩, h3⟩, h4⟩, h5⟩

/-- C4: If loading the recording file fails (missing or corrupt input),
verification aborts entirely: a top-level load error is reported, no
per-stream outcome and no report is produced, and the function returns
without evaluating any catalog entry. -/
theorem C4_load_failure_aborts (e : String) :
    verify_xdf_recording (Except.error e) =
        VerifyResult.loadError ("Error loading XDF file: " ++ e) ∧
      ∀ r : Report, verify_xdf_recording (Except.error e) ≠ VerifyResult.report r :=
  ⟨rfl, fun _ h => VerifyResult.noConfusion h⟩

/-- C10: The broadcaster's stream configurations and the verifier's
expected-stream tables agree exactly: for each of the five streams, the
name, type, channel count, and nominal rate declared in the generator
configs equal the corresponding values the verifier checks against. -/
theorem C10_catalog_tables_agree :
    (∀ config ∈ eeg_stream_configs,
      expected_eeg_streams config.name =
        some { type := config.type, n_channels := config.n_channels,
               srate := (config.srate : ℚ) }) ∧
    marker_stream_config.name = expected_marker_stream.name ∧
    marker_stream_config.type = expected_marker_stream.type ∧
    marker_stream_config.n_channels = expected_marker_stream.n_channels ∧
    (marker_stream_config.srate : ℚ) = expected_marker_stream.srate := by
  refine ⟨?_, rfl, rfl, rfl, by norm_num [marker_stream_config, expected_marker_stream]⟩
  intro config hc
  simp only [eeg_stream_configs, List.mem_cons, List.not_mem_nil, or_false] at hc
  rcases hc with h | h | h | h <;> subst h <;> decide

/-- Witness for C10 at the first broadcaster configuration. -/
theorem C10_witness :
    expected_eeg_streams "EEG_Stream_1Hz" =
      some { type := "EEG", n_channels := 4, srate := (1 : ℚ) } :=
  C10_catalog_tables_agree.1
    { name := "EEG_Stream_1Hz", type := "EEG", n_channels := 4, srate := 1, amplitude := 50 }
    (by decide)

/-- C9: For every input recording, the verifier never divides by zero: the
actual-rate estimate (count-1)/(lastTimestamp-firstTimestamp) is computed
only when the stream has at least two timestamps and the duration is
strictly positive, and the relative-deviation division by the nominal rate
occurs only in the branch where that rate is strictly positive.  Stated by
replacing both divisions with a checked division that fails on a zero
divisor: the checked verifier always succeeds, with the same result. -/
theorem C9_no_division_by_zero (s : XDFStream) :
    rate_check_checked s = some (rate_check s) := by
  unfold rate_check rate_check_checked checkedDiv
  by_cases h1 : 0 < (time_series s).length
  · by_cases h2 : 0 < s.nominal_srate ∧ 1 < (time_stamps s).length
    · by_cases h3 : 0 < lastTs s - firstTs s
      · have hd : lastTs s - firstTs s ≠ 0 := ne_of_gt h3
        have hr : s.nominal_srate ≠ 0 := ne_of_gt h2.1
        simp [h1, h2, h3, hd, hr, actual_srate]
      · simp [h1, h2, h3]
    · by_cases h4 : s.nominal_srate = 0 ∧ 1 < (time_series s).length
      · simp [h1, h2, h4]
      · simp [h1, h2, h4]
  · simp [h1]

/-- C3: For every recorded stream with nominal rate > 0, at least two
timestamps, and positive duration, the verifier computes
actualRate = (count-1)/(lastTimestamp-firstTimestamp) and emits a
rate-deviation warning exactly when |actualRate - nominalRate|/nominalRate
> 0.10; when actualRate equals the nominal rate exactly no warning is
emitted; and the warning never changes the stream outcome or the overall
verdict (the verdict is invariant under discarding all sample data). -/
theorem C3_rate_deviation_advisory :
    (∀ s : XDFStream, 0 < s.nominal_srate → 2 ≤ (time_stamps s).length →
      firstTs s < lastTs s →
      ((rate_check s = RateAdvisory.rateWarning (actual_srate s) ↔
          1 / 10 < |actual_srate s - s.nominal_srate| / s.nominal_srate) ∧
        (actual_srate s = s.nominal_srate →
          rate_check s = RateAdvisory.rateOk (actual_srate s)))) ∧
    ∀ streams : List XDFStream,
      (verify_streams (streams.map stripTimes)).all_expected_found =
        (verify_streams streams).all_expected_found := by
  constructor
  · intro s h1 h2 h3
    have hlen : (time_series s).length = (time_stamps s).length := by
      simp [time_series, time_stamps]
    have hpos : 0 < (time_series s).length := by omega
    have hgt : 1 < (time_stamps s).length := by omega
    have hdur : 0 < lastTs s - firstTs s := sub_pos.mpr h3
    have hten : (0.1 : ℚ) = 1 / 10 := by norm_num
    constructor
    · by_cases hdev : (0.1 : ℚ) < |actual_srate s - s.nominal_srate| / s.nominal_srate
      · rw [hten] at hdev
        simp [rate_check, hpos, h1, hgt, hdur, hten, hdev]
      · rw [hten] at hdev
        simp [rate_check, hpos, h1, hgt, hdur, hten, hdev]
    · intro heq
      have hdev : ¬ ((0.1 : ℚ) < |actual_srate s - s.nominal_srate| / s.nominal_srate) := by
        rw [heq]
        simp
        norm_num
      simp [rate_check, hpos, h1, hgt, hdur, hdev]
  · intro streams
    have hstep : (fun (st : FoundState) s => stepFound st (stripTimes s)) = stepFound :=
      funext fun st => funext fun s => rfl
    have hfold : foldFound (streams.map stripTimes) = foldFound streams := by
      unfold foldFound
      rw [List.foldl_map, hstep]
    show ((expected_eeg_names.all fun n => (foldFound (streams.map stripTimes)).1 n) &&
        (foldFound (streams.map stripTimes)).2) = _
    rw [hfold]
    rfl

/-- A recorded stream whose measured rate equals its nominal rate exactly:
two samples one second apart at 1 Hz. -/
def rate_ok_stream : XDFStream :=
  { name := "EEG_Stream_1Hz", type := "EEG", channel_count := 4, nominal_srate := 1,
    samples := [(0, Sum.inl [0, 0, 0, 0]), (1, Sum.inl [0, 0, 0, 0])] }

/-- Witness for C3: on a stream whose actual rate equals the nominal rate
exactly, no rate-deviation warning is emitted. -/
theorem C3_witness : rate_check rate_ok_stream = RateAdvisory.rateOk (actual_srate rate_ok_stream) :=
  (C3_rate_deviation_advisory.1 rate_ok_stream (by norm_num [rate_ok_stream])
      (by decide) (by decide)).2
    (by norm_num [actual_srate, time_stamps, firstTs, lastTs, rate_ok_stream])

/-- C2: Round-trip: for a recording built directly from the broadcaster's
own five stream configurations (name, type, channel count, and nominal rate
copied verbatim, with at least two samples and timestamps spaced exactly at
1/rate for the continuous streams), the verifier marks every catalog entry
Found and Matched (a VERIFIED line per stream) and the overall verdict is
success. -/
theorem C2_round_trip (n : Nat) (ts : List ℚ) (hn : 2 ≤ n) (hts : 2 ≤ ts.length) :
    (verify_streams (roundTripRecording n ts)).all_expected_found = true ∧
    ((verify_streams (roundTripRecording n ts)).checks.map Prod.snd).all
      StreamCheck.isVerified = true := by
  have hc : ∀ c ∈ eeg_stream_configs,
      StreamCheck.isVerified (classifyStream (roundTripEEG c n)) = true := by
    intro c hcm
    simp only [eeg_stream_configs, List.mem_cons, List.not_mem_nil, or_false] at hcm
    rcases hcm with h | h | h | h <;> subst h <;> rfl
  have hm : StreamCheck.isVerified
      (classifyStream (roundTripMarker marker_stream_config ts)) = true := rfl
  constructor
  · rw [all_expected_found_eq]
    simp only [Bool.and_eq_true]
    refine ⟨⟨⟨⟨?_, ?_⟩, ?_⟩, ?_⟩, ?_⟩
    · rw [anyMatchEEG_iff _ _ { type := "EEG", n_channels := 4, srate := 1 } (by decide)]
      refine ⟨roundTripEEG { name := "EEG_Stream_1Hz", type := "EEG", n_channels := 4, srate := 1, amplitude := 50 } n, ?_, rfl, rfl, rfl, by norm_num [roundTripEEG]⟩
      exact List.mem_append_left _
        (List.mem_map_of_mem _ (by simp [eeg_stream_configs]))
    · rw [anyMatchEEG_iff _ _ { type := "EEG", n_channels := 8, srate := 10 } (by decide)]
      refine ⟨roundTripEEG { name := "EEG_Stream_10Hz", type := "EEG", n_channels := 8, srate := 10, amplitude := 100 } n, ?_, rfl, rfl, rfl, by norm_num [roundTripEEG]⟩
      exact List.mem_append_left _
        (List.mem_map_of_mem _ (by simp [eeg_stream_configs]))
    · rw [anyMatchEEG_iff _ _ { type := "EEG", n_channels := 16, srate := 250 } (by decide)]
      refine ⟨roundTripEEG { name := "EEG_Stream_250Hz", type := "EEG", n_channels := 16, srate := 250, amplitude := 200 } n, ?_, rfl, rfl, rfl, by norm_num [roundTripEEG]⟩
      exact List.mem_append_left _
        (List.mem_map_of_mem _ (by simp [eeg_stream_configs]))
    · rw [anyMatchEEG_iff _ _ { type := "EEG", n_channels := 32, srate := 500 } (by decide)]
      refine ⟨roundTripEEG { name := "EEG_Stream_500Hz", type := "EEG", n_channels := 32, srate := 500, amplitude := 400 } n, ?_, rfl, rfl, rfl, by norm_num [roundTripEEG]⟩
      exact List.mem_append_left _
        (List.mem_map_of_mem _ (by simp [eeg_stream_configs]))
    · rw [anyMatchMarker_iff]
      refine ⟨roundTripMarker marker_stream_config ts, ?_, rfl, rfl, rfl,
        by norm_num [roundTripMarker, marker_stream_config]⟩
      exact List.mem_append_right _ (by simp)
  · have hall : ∀ s ∈ roundTripRecording n ts,
        StreamCheck.isVerified (classifyStream s) = true := by
      intro s hs
      unfold roundTripRecording at hs
      rcases List.mem_append.mp hs with h | h
      · obtain ⟨c, hcmem, rfl⟩ := List.mem_map.mp h
        exact hc c hcmem
      · obtain rfl := List.mem_singleton.mp h
        exact hm
    show (((roundTripRecording n ts).map fun s =>
        (rate_check s, classifyStream s)).map Prod.snd).all StreamCheck.isVerified = true
    rw [List.map_map, List.all_eq_true]
    intro x hx
    obtain ⟨s, hs, rfl⟩ := List.mem_map.mp hx
    exact hall s hs

/-- Witness for C2 at two samples per continuous stream and marker
timestamps 0 and 1. -/
theorem C2_witness :
    (verify_streams (roundTripRecording 2 [0, 1])).all_expected_found = true ∧
    ((verify_streams (roundTripRecording 2 [0, 1])).checks.map Prod.snd).all
      StreamCheck.isVerified = true :=
  C2_round_trip 2 [0, 1] (by norm_num) (by norm_num)

/-- A recorded stream named like a catalog entry, differing only in type. -/
def mismatch_type_stream : XDFStream :=
  { name := "EEG_Stream_1Hz", type := "Markers", channel_count := 4, nominal_srate := 1,
    samples := [] }

/-- A recorded stream named like a catalog entry, differing only in channel
count. -/
def mismatch_channels_stream : XDFStream :=
  { name := "EEG_Stream_1Hz", type := "EEG", channel_count := 5, nominal_srate := 1,
    samples := [] }

/-- Counterexample to C5 as stated: two recorded streams that differ from
the expected configuration in different fields (type only, and channel
count only) receive the identical fixed mismatch message, so the reason
cannot list which of the fields differed. -/
theorem C5_counterexample :
    mismatch_type_stream.type ≠ "EEG" ∧
    mismatch_type_stream.channel_count = 4 ∧
    mismatch_type_stream.nominal_srate = 1 ∧
    mismatch_channels_stream.type = "EEG" ∧
    mismatch_channels_stream.channel_count ≠ 4 ∧
    mismatch_channels_stream.nominal_srate = 1 ∧
    classifyStream mismatch_type_stream = classifyStream mismatch_channels_stream ∧
    classifyStream mismatch_type_stream = StreamCheck.mismatch
      "  [MISMATCH]: EEG_Stream_1Hz properties do not match expected configuration." := by
  refine ⟨by decide, rfl, rfl, rfl, by decide, rfl, rfl, rfl⟩

/-- C5 (amended): For every recorded stream whose name matches a catalog
entry but whose type, channel count, or nominal rate differs from the
expected values, the verifier produces a Mismatched outcome carrying a
fixed generic message naming the stream; the message does not identify
which fields differed. -/
theorem C5_mismatch_generic_message :
    (∀ (s : XDFStream) (e : ExpectedCfg), expected_eeg_streams s.name = some e →
      ¬ (s.type = e.type ∧ s.channel_count = e.n_channels ∧ s.nominal_srate = e.srate) →
      classifyStream s = StreamCheck.mismatch
        ("  [MISMATCH]: " ++ s.name ++ " properties do not match expected configuration.")) ∧
    (∀ s : XDFStream, s.name = expected_marker_stream.name →
      ¬ (s.type = expected_marker_stream.type ∧
          s.channel_count = expected_marker_stream.n_channels ∧
          s.nominal_srate = expected_marker_stream.srate) →
      classifyStream s = StreamCheck.mismatch
        ("  [MISMATCH]: " ++ s.name ++ " properties do not match expected configuration.")) := by
  constructor
  · intro s e he hne
    unfold classifyStream
    rw [he]
    have hb : ¬ (fieldsMatch s e = true) := by simpa [fieldsMatch] using hne
    simp [hb]
  · intro s hn hne
    unfold classifyStream
    have hnone : expected_eeg_streams s.name = none := by rw [hn]; rfl
    rw [hnone]
    simp [hn, hne]

/-- Witness for the amended C5 at a stream with a wrong type. -/
theorem C5_witness :
    classifyStream mismatch_type_stream = StreamCheck.mismatch
      ("  [MISMATCH]: " ++ mismatch_type_stream.name ++
        " properties do not match expected configuration.") :=
  C5_mismatch_generic_message.1 mismatch_type_stream
    { type := "EEG", n_channels := 4, srate := 1 } (by decide) (by decide)

/-! ### Generator loop claims -/

lemma create_eeg_stream_run_stop_free (config : EEGConfig) (noise : Nat → Nat → ℚ)
    (pre post : List Bool) (h : ∀ b ∈ pre, b = false) (c : Nat) :
    create_eeg_stream_run config noise (pre ++ true :: post) c =
      ((List.range pre.length).map fun i => (eeg_tick config noise (c + i), 1 / (config.srate : ℚ)),
        c + pre.length) := by
  induction pre generalizing c with
  | nil => simp [create_eeg_stream_run]
  | cons b rest ih =>
    have hb : b = false := h b (List.mem_cons_self b rest)
    subst hb
    have hrest : ∀ x ∈ rest, x = false := fun x hx => h x (List.mem_cons_of_mem _ hx)
    simp only [List.cons_append, create_eeg_stream_run, Bool.false_eq_true, if_false,
      List.append_eq]
    rw [ih hrest (c + 1)]
    have harith : ∀ i : Nat, c + 1 + i = c + (i + 1) := fun i => by omega
    simp [List.range_succ_eq_map, List.map_map, Function.comp, harith]

/-- C6: In the continuous generator's loop, the shared stop signal is
checked before each tick; if it is not set, exactly one sample is pushed
and the sample counter is incremented by exactly one before the
1/nominalRate suspension; once the stop signal is observed set, the
generator terminates without pushing any further sample.  Stated over the
observation trace: for a trace of not-stopped checks followed by a stopped
check and anything after it, the run pushes exactly one sample per
not-stopped check, at counters 0, 1, ..., each followed by the 1/srate
sleep, the final counter equals the number of pushes, and nothing after the
stop observation is pushed. -/
theorem C6_generator_loop_contract (config : EEGConfig) (noise : Nat → Nat → ℚ)
    (pre post : List Bool) (h : ∀ b ∈ pre, b = false) :
    create_eeg_stream_run config noise (pre ++ true :: post) 0 =
      ((List.range pre.length).map fun i => (eeg_tick config noise i, 1 / (config.srate : ℚ)),
        pre.length) := by
  have := create_eeg_stream_run_stop_free config noise pre post h 0
  simpa using this

/-- Witness for C6: two non-stopped checks then a stop. -/
theorem C6_witness :
    create_eeg_stream_run { name := "EEG_Stream_1Hz", type := "EEG", n_channels := 4, srate := 1, amplitude := 50 } (fun _ _ => 0) ([false, false] ++ true :: []) 0 =
      ((List.range 2).map fun i => (eeg_tick { name := "EEG_Stream_1Hz", type := "EEG", n_channels := 4, srate := 1, amplitude := 50 } (fun _ _ => 0) i, 1 / (({ name := "EEG_Stream_1Hz", type := "EEG", n_channels := 4, srate := 1, amplitude := 50 } : EEGConfig).srate : ℚ)), 2) :=
  C6_generator_loop_contract _ _ [false, false] [] (by decide)

lemma create_marker_stream_run_sleep (config : MarkerConfig) (us : Nat → ℚ) (ks : Nat → Nat)
    (obs : List Bool) (i : Nat) (p : String × ℚ)
    (hp : p ∈ create_marker_stream_run config us ks obs i) :
    ∃ j, p.2 = marker_sleep_time config (us j) := by
  induction obs generalizing i with
  | nil => simp [create_marker_stream_run] at hp
  | cons b rest ih =>
    cases b
    · simp only [create_marker_stream_run, Bool.false_eq_true, if_false] at hp
      rcases List.mem_cons.mp hp with hh | hh
      · exact ⟨i, by rw [hh]⟩
      · exact ih (i + 1) hh
    · simp [create_marker_stream_run] at hp

/-- C7: For the event stream, every inter-arrival gap (modelled as the
per-iteration suspension drawn by random.uniform from the configured
interval bounds) lies within [500, 2000] milliseconds, i.e. [0.5, 2]
seconds, inclusive, for every push of an arbitrarily long run, whenever the
underlying unit random draws lie in [0, 1]. -/
theorem C7_marker_gap_bounds (us : Nat → ℚ) (ks : Nat → Nat) (obs : List Bool)
    (hu : ∀ i, 0 ≤ us i ∧ us i ≤ 1) :
    ∀ p ∈ create_marker_stream_run marker_stream_config us ks obs 0,
      500 / 1000 ≤ p.2 ∧ p.2 ≤ 2000 / 1000 := by
  intro p hp
  obtain ⟨j, hj⟩ := create_marker_stream_run_sleep _ _ _ _ _ _ hp
  rw [hj]
  have hsleep : marker_sleep_time marker_stream_config (us j) =
      (500 + (2000 - 500) * us j) / 1000 := by
    simp [marker_sleep_time, py_uniform, marker_stream_config]
  rw [hsleep]
  obtain ⟨h0, h1⟩ := hu j
  constructor
  · exact (div_le_div_iff_of_pos_right (by norm_num)).mpr (by nlinarith)
  · exact (div_le_div_iff_of_pos_right (by norm_num)).mpr (by nlinarith)

/-- Witness for C7: one push with the unit draw at 1 sleeps exactly 2
seconds, inside the bounds. -/
theorem C7_witness : (500 : ℚ) / 1000 ≤ 2 ∧ (2 : ℚ) ≤ 2000 / 1000 :=
  C7_marker_gap_bounds (fun _ => 1) (fun _ => 0) [false] (fun _ => by norm_num)
    ("Onset", 2)
    (by norm_num [create_marker_stream_run, marker_sleep_time, py_uniform,
      py_choice, marker_stream_config])

lemma mem_create_eeg_stream_run (config : EEGConfig) (noise : Nat → Nat → ℚ)
    (obs : List Bool) (c : Nat) (p : List ℚ × ℚ)
    (hp : p ∈ (create_eeg_stream_run config noise obs c).1) :
    ∃ i, p = (eeg_tick config noise i, 1 / (config.srate : ℚ)) := by
  induction obs generalizing c with
  | nil => simp [create_eeg_stream_run] at hp
  | cons b rest ih =>
    cases b
    · simp only [create_eeg_stream_run, Bool.false_eq_true, if_false] at hp
      rcases List.mem_cons.mp hp with hh | hh
      · exact ⟨c, hh⟩
      · exact ih (c + 1) hh
    · simp [create_eeg_stream_run] at hp

lemma eeg_sample_value_bound (config : EEGConfig) (u : ℚ) (c : Nat)
    (hs : 0 < config.srate) (ha : 0 ≤ config.amplitude)
    (h0 : -(1 / 2) ≤ u) (h1 : u ≤ 1 / 2) :
    |eeg_sample_value config u c| ≤ 9 / 10 * config.amplitude := by
  unfold eeg_sample_value
  set R : ℚ := (config.srate : ℚ) with hR
  have hRpos : (0 : ℚ) < R := by rw [hR]; exact_mod_cast hs
  set m : ℚ := ((c % (config.srate * 2) : Nat) : ℚ) with hm
  have hm0 : 0 ≤ m := by rw [hm]; exact Nat.cast_nonneg _
  have hmlt : m < R * 2 := by
    rw [hm, hR]
    have h2 : c % (config.srate * 2) < config.srate * 2 := Nat.mod_lt _ (by omega)
    exact_mod_cast h2
  have ht0 : 0 ≤ 0.2 * m / R := by positivity
  have ht1 : 0.2 * m / R < 2 / 5 := by
    rw [div_lt_iff hRpos]
    nlinarith
  have habs : |u + 0.2 * m / R| ≤ 9 / 10 := by
    rw [abs_le]
    constructor <;> nlinarith
  calc |config.amplitude * (u + 0.2 * m / R)|
      = |config.amplitude| * |u + 0.2 * m / R| := abs_mul _ _
    _ = config.amplitude * |u + 0.2 * m / R| := by rw [abs_of_nonneg ha]
    _ ≤ config.amplitude * (9 / 10) := mul_le_mul_of_nonneg_left habs ha
    _ = 9 / 10 * config.amplitude := by ring

/-- The second broadcaster configuration (EEG_Stream_10Hz). -/
def eeg_config_10Hz : EEGConfig :=
  { name := "EEG_Stream_10Hz", type := "EEG", n_channels := 8, srate := 10, amplitude := 100 }

/-- Counterexample to C8 as stated: at the 10 Hz configuration, sample
counter 19 and the uniform draw at its upper end 0.5, the per-channel value
is 100 * (0.5 + 0.2 * 19 / 10) = 88, which exceeds 0.7 * amplitude = 70, so
the magnitude is not bounded by 0.7 * amplitude. -/
theorem C8_counterexample :
    eeg_config_10Hz ∈ eeg_stream_configs ∧
    -(1 / 2 : ℚ) ≤ 1 / 2 ∧ (1 / 2 : ℚ) ≤ 1 / 2 ∧
    eeg_sample_value eeg_config_10Hz (1 / 2) 19 = 88 ∧
    (7 / 10 : ℚ) * eeg_config_10Hz.amplitude < 88 := by
  refine ⟨by decide, by norm_num, by norm_num, ?_, by norm_num [eeg_config_10Hz]⟩
  norm_num [eeg_sample_value, eeg_config_10Hz]

/-- C8 (amended): For every continuous stream, every channel of every
emitted sample equals amplitude * (u + 0.2 * (sampleCounter mod
(2*nominalRate)) / nominalRate) for the per-channel uniform draw u in
[-0.5, 0.5], and consequently every emitted value has magnitude bounded by
0.9 * amplitude (the sawtooth term reaches almost 0.4, not 0.2, so the
bound 0.7 * amplitude claimed by the spec is exceeded). -/
theorem C8_sample_magnitude_bound (config : EEGConfig) (noise : Nat → Nat → ℚ)
    (obs : List Bool) (hs : 0 < config.srate) (ha : 0 ≤ config.amplitude)
    (hn : ∀ c ch, -(1 / 2) ≤ noise c ch ∧ noise c ch ≤ 1 / 2) :
    ∀ p ∈ (create_eeg_stream_run config noise obs 0).1, ∀ v ∈ p.1,
      |v| ≤ 9 / 10 * config.amplitude := by
  intro p hp v hv
  obtain ⟨i, rfl⟩ := mem_create_eeg_stream_run config noise obs 0 p hp
  have hv2 : v ∈ eeg_tick config noise i := hv
  unfold eeg_tick at hv2
  obtain ⟨ch, hch, rfl⟩ := List.mem_map.mp hv2
  exact eeg_sample_value_bound config _ i hs ha (hn i ch).1 (hn i ch).2

/-- Witness for the amended C8: the first pushed value of a run of the 1 Hz
stream with all uniform draws at 0.5. -/
theorem C8_witness :
    |eeg_sample_value { name := "EEG_Stream_1Hz", type := "EEG", n_channels := 4, srate := 1, amplitude := 50 } (1 / 2) 0| ≤ 9 / 10 * (50 : ℚ) := by
  have h := C8_sample_magnitude_bound
    { name := "EEG_Stream_1Hz", type := "EEG", n_channels := 4, srate := 1, amplitude := 50 }
    (fun _ _ => 1 / 2) [false] (by decide) (by norm_num) (fun c ch => by norm_num)
  refine h (eeg_tick { name := "EEG_Stream_1Hz", type := "EEG", n_channels := 4, srate := 1, amplitude := 50 } (fun _ _ => 1 / 2) 0, 1 / (({ name := "EEG_Stream_1Hz", type := "EEG", n_channels := 4, srate := 1, amplitude := 50 } : EEGConfig).srate : ℚ)) ?_ _ ?_
  · simp [create_eeg_stream_run]
  · show _ ∈ eeg_tick { name := "EEG_Stream_1Hz", type := "EEG", n_channels := 4, srate := 1, amplitude := 50 } (fun _ _ => 1 / 2) 0
    simp [eeg_tick, List.range_succ]

end LSLSim
